import Mathlib

/-!
Verification of the prompt-scoring microservice (`score_server.py`).

Python strings are modelled as `List Char`; the Python string operations used by
the server (`strip`, `lower`, `split`, `startswith`, `lstrip`, `replace`, `in`,
slicing, `len`) are embedded below over that representation, restricted to the
ASCII character data the server manipulates.

The external LLM provider is modelled as a parameter of type `Except Unit Str`:
`Except.ok text` is a successful call whose first content block carries `text`;
`Except.error ()` is any raised transport/auth/extraction failure (the Python
code catches every exception around the call in one `try`/`except`).
The process-wide default credential `ANTHROPIC_API_KEY` is passed explicitly as
the `envKey` argument.
-/

/-- Python strings, modelled as lists of characters. -/
abbrev Str := List Char

/-- The ASCII whitespace characters stripped by Python `str.strip()`. -/
def isPySpace (c : Char) : Bool :=
  c = ' ' || c = '\t' || c = '\n' || c = '\r' || c = '\x0b' || c = '\x0c'

/-- Python `s.strip()`: remove leading and trailing whitespace. -/
def pyStrip (s : Str) : Str :=
  ((s.dropWhile isPySpace).reverse.dropWhile isPySpace).reverse

/-- Python `s.lower()` (ASCII). -/
def pyLower (s : Str) : Str := s.map Char.toLower

/-- Python `s.startswith(t)`, first argument the candidate leading substring. -/
def listStartsWith : Str → Str → Bool
  | [], _ => true
  | _ :: _, [] => false
  | x :: xs, y :: ys => x == y && listStartsWith xs ys

/-- Python `needle in hay` substring test. -/
def containsSub (needle : Str) : Str → Bool
  | [] => needle.isEmpty
  | c :: t => listStartsWith needle (c :: t) || containsSub needle t

/-- Python `any(k in s for k in ks)`. -/
def hasAny (s : Str) (ks : List Str) : Bool :=
  ks.any (fun k => containsSub k s)

/-- Python `s.split(chr(10))`: split on every newline, keeping empty pieces. -/
def splitNl : Str → List Str
  | [] => [[]]
  | c :: t =>
    if c = '\n' then [] :: splitNl t
    else
      match splitNl t with
      | [] => [[c]]
      | l :: ls => (c :: l) :: ls

/-- A word character for the regex `\b` boundary: `[A-Za-z0-9_]`. -/
def isWordChar (c : Char) : Bool := c.isAlphanum || c = '_'

/-- The literal word `w` occurs at the head of `s` with a word boundary
directly after it. -/
def matchAtHere (w s : Str) : Bool :=
  listStartsWith w s &&
    (match s.drop w.length with
     | [] => true
     | c :: _ => !isWordChar c)

/-- Scan `s` for an occurrence of the word `w` preceded and followed by a word
boundary; `prevW` records whether the previous character was a word character. -/
def boundaryScan (w : Str) : Bool → Str → Bool
  | prevW, [] => !prevW && matchAtHere w []
  | prevW, c :: cs => (!prevW && matchAtHere w (c :: cs)) || boundaryScan w (isWordChar c) cs

/-- Embedding of `re.search(r"\b(audience|tone|length|deadline|examples?)\b", p, re.I)`:
a case-insensitive whole-word occurrence of one of the six words. The scan runs
over the lower-cased text, which for ASCII agrees with `re.I` matching, and
`examples?` is expanded into its two alternatives. -/
def regexWordMatch (p : Str) : Bool :=
  ["audience".data, "tone".data, "length".data, "deadline".data,
   "example".data, "examples".data].any
    (fun w => boundaryScan w false (pyLower p))

-- --- GOAL DETECTOR -------------------------------------------------

def debugKeywords : List Str :=
  ["debug".data, "fix bug".data, "error".data, "not working".data]

def codeKeywords : List Str :=
  ["code".data, "python".data, "javascript".data, "function".data, "script".data]

/-- Function `detect_goal` from `score_server.py`: ordered keyword predicates,
first match wins. -/
def detect_goal (p : Str) : Str :=
  let p_low := pyLower p
  if hasAny p_low debugKeywords then
    "debug or fix code".data
  else if hasAny p_low codeKeywords then
    "generate or write code".data
  else if hasAny p_low ["summarize".data, "tl;dr".data, "summary".data, "condense".data] then
    "summarize text or content".data
  else if hasAny p_low ["write".data, "compose".data, "draft".data] then
    if hasAny p_low ["email".data, "letter".data, "message".data] then
      "write an email or message".data
    else if hasAny p_low ["essay".data, "article".data, "blog".data, "post".data] then
      "write an article or essay".data
    else
      "write or create content".data
  else if hasAny p_low ["analyze".data, "interpret".data, "examine".data] then
    "analyze or interpret information".data
  else if hasAny p_low ["explain".data, "what is".data, "how does".data, "why".data] then
    "learn or understand a concept".data
  else if hasAny p_low ["compare".data, "versus".data, "vs".data, "difference between".data] then
    "compare ideas or options".data
  else if hasAny p_low ["translate".data, "translation".data] then
    "translate text".data
  else if hasAny p_low ["plan".data, "outline".data, "steps".data, "schedule".data, "roadmap".data] then
    "create a plan or outline".data
  else if hasAny p_low ["brainstorm".data, "ideas".data, "suggest".data] then
    "brainstorm ideas".data
  else if hasAny p_low ["review".data, "critique".data, "feedback".data] then
    "get feedback or review".data
  else
    "general reasoning or assistance".data

/-- Function `score_prompt` from `score_server.py`: heuristic quality score 0-100. -/
def score_prompt (p : Str) : Int :=
  if pyStrip p = [] then 10
  else
    let p_low := pyLower p
    let score : Int := 50
      + (if hasAny p_low ["role:".data, "you are".data, "as a ".data] then 10 else 0)
      + (if hasAny p_low ["output".data, "format".data, "json".data, "table".data] then 10 else 0)
      + (if 80 < p.length then 5 else 0)
      + (if regexWordMatch p then 10 else 0)
      + (if containsSub ("sources".data) p_low || containsSub ("cite".data) p_low then 5 else 0)
    max 0 (min 100 score)

-- --- CREDENTIAL RESOLUTION -----------------------------------------

/-- Python `api_key or ANTHROPIC_API_KEY`: the caller-supplied credential when
non-empty (Python truthiness of strings), else the process-wide default. -/
def effectiveKey (api_key envKey : Str) : Str :=
  if api_key = [] then envKey else api_key

-- --- REWRITE -------------------------------------------------------

/-- Function `rewrite_prompt_simple` from `score_server.py`: the deterministic
template-based fallback rewrite. -/
def rewrite_prompt_simple (p goal : Str) : Str :=
  "Role: You are a helpful assistant.\nGoal: ".data ++ goal
    ++ "\nTask: ".data ++ pyStrip p
    ++ "\nConstraints: Be clear, concise, and step-by-step.\nOutput format: Bulleted outline plus a one-sentence summary.".data

/-- The fixed boilerplate lead-in phrases stripped from LLM rewrites. -/
def preambles : List Str :=
  ["here is the rewritten prompt:".data,
   "here\x27s the rewritten prompt:".data,
   "rewritten prompt:".data,
   "improved prompt:".data,
   "here is an improved version:".data,
   "here\x27s an improved version:".data]

/-- The `for preamble in preambles: ... break` loop of
`rewrite_prompt_with_llm`: `low` is the lower-cased text, `res` the original;
on the first phrase that heads `low`, drop its length from `res` and strip. -/
def stripPreambleLoop : List Str → Str → Str → Str
  | [], _, res => res
  | q :: rest, low, res =>
    if listStartsWith q low then pyStrip (res.drop q.length)
    else stripPreambleLoop rest low res

/-- Function `rewrite_prompt_with_llm` from `score_server.py`, with the provider call
abstracted into the `provider` outcome parameter. -/
def rewrite_prompt_with_llm (p goal api_key envKey : Str)
    (provider : Except Unit Str) : Str :=
  let key := effectiveKey api_key envKey
  if key = [] then rewrite_prompt_simple p goal
  else
    match provider with
    | Except.error _ => rewrite_prompt_simple p goal
    | Except.ok text =>
      let result := pyStrip text
      stripPreambleLoop preambles (pyLower result) result

-- --- SUGGEST NEXT --------------------------------------------------

/-- The static suggestion list returned when no credential is available. -/
def noKeyFallback : List Str :=
  ["Continue exploring this topic in more depth.".data,
   "Can you provide a practical example?".data]

/-- The static suggestion list substituted on call failure or when fewer than
two candidates are parsed. -/
def failFallback : List Str :=
  ["Can you elaborate on the key points you mentioned?".data,
   "What are some practical applications of this?".data]

/-- The character set of `line.lstrip(` `0123456789.-) `)`. -/
def isNumPunct (c : Char) : Bool :=
  c.isDigit || c = '.' || c = '-' || c = ')' || c = ' '

/-- One iteration of the suggestion-parsing loop: strip the line; keep it if
non-empty and headed by a digit or a dash; remove leading numbering
punctuation and strip again; discard the result if empty. -/
def cleanSuggestionLine (rawLine : Str) : Option Str :=
  let line := pyStrip rawLine
  match line with
  | [] => none
  | c :: _ =>
    if c.isDigit || listStartsWith ("-".data) line then
      let cleaned := pyStrip (line.dropWhile isNumPunct)
      if cleaned = [] then none else some cleaned
    else none

/-- The numbered-list parsing of `suggest_next`: split the (already stripped)
provider text on newlines and collect the cleaned candidate lines. -/
def parseSuggestions (result : Str) : List Str :=
  (splitNl result).filterMap cleanSuggestionLine

/-- Function `suggest_next` from `score_server.py`, provider call abstracted. -/
def suggest_next (last_prompt last_response api_key envKey : Str)
    (provider : Except Unit Str) : List Str :=
  let key := effectiveKey api_key envKey
  if key = [] then noKeyFallback
  else
    match provider with
    | Except.error _ => failFallback
    | Except.ok text =>
      let result := pyStrip text
      let suggestions := parseSuggestions result
      if suggestions.length < 2 then failFallback
      else if 2 < suggestions.length then suggestions.take 2
      else suggestions

-- --- INFER METADATA ------------------------------------------------

/-- Python `s.replace(old, "")` driven by explicit fuel: scan left to right,
skipping each non-overlapping occurrence of `old`. The fuel decreases by one
per step while the text shrinks by at least one character, so `s.length` fuel
always suffices. -/
def removeAllFuel (old : Str) : Nat → Str → Str
  | _, [] => []
  | 0, s => s
  | fuel + 1, c :: cs =>
    if !old.isEmpty && listStartsWith old (c :: cs) then
      removeAllFuel old fuel ((c :: cs).drop old.length)
    else
      c :: removeAllFuel old fuel cs

/-- Python `s.replace(old, "")`: remove every (left-to-right, non-overlapping)
occurrence of `old` from `s`. -/
def pyReplaceEmpty (old s : Str) : Str := removeAllFuel old s.length s

/-- The category whitelist of `/infer-metadata`. -/
def categoriesWhitelist : List Str :=
  ["coding".data, "writing".data, "analysis".data, "creative".data, "other".data]

/-- One iteration of the metadata-parsing loop over `(title, category)`. -/
def parseMetaLine (acc : Str × Str) (rawLine : Str) : Str × Str :=
  let line := pyStrip rawLine
  if listStartsWith ("TITLE:".data) line then
    (pyStrip (pyReplaceEmpty ("TITLE:".data) line), acc.2)
  else if listStartsWith ("CATEGORY:".data) line then
    let cat := pyLower (pyStrip (pyReplaceEmpty ("CATEGORY:".data) line))
    if cat ∈ categoriesWhitelist then (acc.1, cat) else acc
  else acc

/-- The `TITLE:`/`CATEGORY:` line parsing of `infer_metadata`, starting from
the defaults `"Untitled Prompt"` and `"other"`. -/
def parseMetadata (raw : Str) : Str × Str :=
  (splitNl (pyStrip raw)).foldl parseMetaLine ("Untitled Prompt".data, "other".data)

/-- The credential-free fallback of `infer_metadata`: truncated title and
category `"other"`. -/
def metadataFallback (prompt : Str) : Str × Str :=
  (if 50 < prompt.length then prompt.take 50 ++ "...".data else prompt, "other".data)

/-- Function `infer_metadata` from `score_server.py`, provider call abstracted;
the result is the `(title, category)` pair. -/
def infer_metadata (prompt api_key envKey : Str)
    (provider : Except Unit Str) : Str × Str :=
  let key := effectiveKey api_key envKey
  if key = [] then metadataFallback prompt
  else
    match provider with
    | Except.error _ => metadataFallback prompt
    | Except.ok text => parseMetadata text

-- --- THEOREMS ------------------------------------------------------

/-- Claim C1: for every input string `p`, `score_prompt p` is an integer in
`[0, 100]`, and if `p` is empty or consists only of whitespace (its Python
`strip` is empty) the result is exactly 10. -/
theorem score_prompt_in_range :
    ∀ p : Str, (0 ≤ score_prompt p ∧ score_prompt p ≤ 100) ∧
      (pyStrip p = [] → score_prompt p = 10) := by
  intro p
  constructor
  · unfold score_prompt
    split
    · exact ⟨by norm_num, by norm_num⟩
    · exact ⟨le_max_left 0 _, max_le (by norm_num) (min_le_left _ _)⟩
  · intro h
    simp [score_prompt, h]

theorem score_prompt_in_range_witness : score_prompt (" \t ".data) = 10 :=
  (score_prompt_in_range (" \t ".data)).2 (by decide)

/-- Claim C4: `detect_goal` checks the debugging keywords before the generic
code keywords, in a fixed first-match-wins order: every prompt containing a
debug keyword is labelled "debug or fix code", and in particular
`"debug this code"` (which also contains the code keyword `"code"`) is
labelled "debug or fix code", not "generate or write code". -/
theorem detect_goal_debug_precedence :
    detect_goal ("debug this code".data) = "debug or fix code".data ∧
    hasAny (pyLower ("debug this code".data)) codeKeywords = true ∧
    ∀ p : Str, hasAny (pyLower p) debugKeywords = true →
      detect_goal p = "debug or fix code".data := by
  refine ⟨by decide, by decide, ?_⟩
  intro p h
  simp [detect_goal, h]

theorem detect_goal_debug_precedence_witness :
    detect_goal ("please fix bug now".data) = "debug or fix code".data :=
  detect_goal_debug_precedence.2.2 ("please fix bug now".data) (by decide)

/-- Claim C5: inside the write/compose/draft branch of `detect_goal`, a nested
check distinguishes email/letter/message from essay/article/blog/post from a
generic writing label, on the three example prompts. -/
theorem detect_goal_write_branch :
    detect_goal ("write an email to my boss".data) = "write an email or message".data ∧
    detect_goal ("write an essay about cats".data) = "write an article or essay".data ∧
    detect_goal ("write a poem".data) = "write or create content".data := by
  decide

/-- Claim C6: with an empty caller credential and an empty process default,
the rewrite operation returns the template rewrite for every provider outcome
(so no external call can influence the result), and a non-empty caller
credential takes precedence over the process-wide default. -/
theorem rewrite_no_key_template :
    (∀ (p goal : Str) (prov : Except Unit Str),
        rewrite_prompt_with_llm p goal [] [] prov = rewrite_prompt_simple p goal) ∧
    (∀ ak ek : Str, ak ≠ [] → effectiveKey ak ek = ak) := by
  constructor
  · intro p goal prov
    simp [rewrite_prompt_with_llm, effectiveKey]
  · intro ak ek h
    simp [effectiveKey, h]

theorem rewrite_no_key_template_witness :
    effectiveKey ("caller-key".data) ("env-key".data) = "caller-key".data :=
  rewrite_no_key_template.2 ("caller-key".data) ("env-key".data) (by decide)

/-- Claim C2, counterexample: the list returned by the suggestion operation
when no effective credential is present differs from the list it returns on a
transport/call failure, at the explicit inputs shown. -/
theorem suggest_fallback_claim_cex :
    suggest_next ("p".data) ("r".data) [] [] (Except.ok ("x".data)) ≠
      suggest_next ("p".data) ("r".data) ("k".data) [] (Except.error ()) := by
  decide

/-- Claim C2, amended: the static 2-item fallback returned on a transport/call
failure is the same list as the one substituted when fewer than two candidates
are parsed, but it is a different list from the 2-item fallback returned when
no effective credential is present. -/
theorem suggest_fallback_lists :
    (∀ lp lr ak ek : Str, ak ≠ [] →
        suggest_next lp lr ak ek (Except.error ()) = failFallback) ∧
    (∀ lp lr ak ek raw : Str, ak ≠ [] →
        (parseSuggestions (pyStrip raw)).length < 2 →
        suggest_next lp lr ak ek (Except.ok raw) = failFallback) ∧
    (∀ (lp lr : Str) (prov : Except Unit Str),
        suggest_next lp lr [] [] prov = noKeyFallback) ∧
    noKeyFallback ≠ failFallback := by
  refine ⟨?_, ?_, ?_, by decide⟩
  · intro lp lr ak ek h
    simp [suggest_next, effectiveKey, h]
  · intro lp lr ak ek raw h h2
    simp [suggest_next, effectiveKey, h, h2]
  · intro lp lr prov
    simp [suggest_next, effectiveKey]

theorem suggest_fallback_lists_witness :
    suggest_next ("a".data) ("b".data) ("k".data) [] (Except.error ()) = failFallback ∧
    suggest_next ("a".data) ("b".data) ("k".data) [] (Except.ok ("no numbered lines".data))
      = failFallback :=
  ⟨suggest_fallback_lists.1 ("a".data) ("b".data) ("k".data) [] (by decide),
   suggest_fallback_lists.2.1 ("a".data) ("b".data) ("k".data) [] ("no numbered lines".data)
     (by decide) (by decide)⟩

/-- Claim C3: for every request and every provider outcome the suggestion
operation returns exactly 2 strings (it is a total function, so it never
raises); when at least two candidates parse it returns the first two of them,
and when fewer than two parse it returns the static fallback unmixed. -/
theorem suggest_next_exactly_two :
    (∀ (lp lr ak ek : Str) (prov : Except Unit Str),
        (suggest_next lp lr ak ek prov).length = 2) ∧
    (∀ lp lr ak ek raw : Str, ak ≠ [] →
        2 ≤ (parseSuggestions (pyStrip raw)).length →
        suggest_next lp lr ak ek (Except.ok raw)
          = (parseSuggestions (pyStrip raw)).take 2) ∧
    (∀ lp lr ak ek raw : Str, ak ≠ [] →
        (parseSuggestions (pyStrip raw)).length < 2 →
        suggest_next lp lr ak ek (Except.ok raw) = failFallback) := by
  refine ⟨?_, ?_, ?_⟩
  · intro lp lr ak ek prov
    by_cases hk : effectiveKey ak ek = []
    · simp [suggest_next, hk, noKeyFallback]
    · cases prov with
      | error e => simp [suggest_next, hk, failFallback]
      | ok raw =>
        by_cases h2 : (parseSuggestions (pyStrip raw)).length < 2
        · simp [suggest_next, hk, h2, failFallback]
        · by_cases h3 : 2 < (parseSuggestions (pyStrip raw)).length
          · simp [suggest_next, hk, h2, h3, List.length_take]
            omega
          · have hlen : (parseSuggestions (pyStrip raw)).length = 2 := by omega
            simp [suggest_next, hk, h2, h3, hlen]
  · intro lp lr ak ek raw h h2
    have hk : effectiveKey ak ek ≠ [] := by simp [effectiveKey, h]
    by_cases h3 : 2 < (parseSuggestions (pyStrip raw)).length
    · simp [suggest_next, hk, Nat.not_lt.mpr h2, h3]
    · have hlen : (parseSuggestions (pyStrip raw)).length = 2 := by omega
      have htake : (parseSuggestions (pyStrip raw)).take 2
          = parseSuggestions (pyStrip raw) :=
        List.take_of_length_le (by omega)
      simp [suggest_next, hk, Nat.not_lt.mpr h2, h3, htake]
  · intro lp lr ak ek raw h h2
    have hk : effectiveKey ak ek ≠ [] := by simp [effectiveKey, h]
    simp [suggest_next, hk, h2]

theorem suggest_next_exactly_two_witness :
    suggest_next ("q".data) ("s".data) ("k".data) []
        (Except.ok ("1. Alpha\n2. Beta\n3. Gamma".data))
      = ["Alpha".data, "Beta".data] :=
  (suggest_next_exactly_two.2.1 ("q".data) ("s".data) ("k".data) []
      ("1. Alpha\n2. Beta\n3. Gamma".data) (by decide) (by decide)).trans (by decide)

/-- If no phrase in `ps` heads the lower-cased text, the preamble loop
returns the text unchanged. -/
theorem stripPreambleLoop_find_none :
    ∀ (ps : List Str) (low res : Str),
      ps.find? (fun q => listStartsWith q low) = none →
      stripPreambleLoop ps low res = res := by
  intro ps
  induction ps with
  | nil => intro low res _; rfl
  | cons q t ih =>
    intro low res h
    cases hb : listStartsWith q low with
    | true => simp [List.find?, hb] at h
    | false =>
      simp only [List.find?, hb] at h
      simp [stripPreambleLoop, hb, ih low res h]

/-- The preamble loop strips exactly the first phrase of `ps` that heads the
lower-cased text, then strips the surrounding whitespace. -/
theorem stripPreambleLoop_find_some :
    ∀ (ps : List Str) (low res q : Str),
      ps.find? (fun r => listStartsWith r low) = some q →
      stripPreambleLoop ps low res = pyStrip (res.drop q.length) := by
  intro ps
  induction ps with
  | nil => intro low res q h; simp [List.find?] at h
  | cons r t ih =>
    intro low res q h
    cases hb : listStartsWith r low with
    | true =>
      simp only [List.find?, hb, Option.some.injEq] at h
      subst h
      simp [stripPreambleLoop, hb]
    | false =>
      simp only [List.find?, hb] at h
      simp [stripPreambleLoop, hb, ih low res q h]

/-- Claim C7: on a successful provider call the rewrite operation trims the
generated text and runs the preamble loop on it; the loop leaves text whose
lower-casing is headed by no preamble phrase unchanged, and for the first
matching phrase (in list order, as found by `List.find?`) it drops exactly
that prefix from the original-case text and strips the adjacent whitespace. -/
theorem rewrite_preamble_strip :
    (∀ (p goal ak ek raw : Str), ak ≠ [] →
        rewrite_prompt_with_llm p goal ak ek (Except.ok raw)
          = stripPreambleLoop preambles (pyLower (pyStrip raw)) (pyStrip raw)) ∧
    (∀ t : Str, preambles.find? (fun q => listStartsWith q (pyLower t)) = none →
        stripPreambleLoop preambles (pyLower t) t = t) ∧
    (∀ t q : Str, preambles.find? (fun r => listStartsWith r (pyLower t)) = some q →
        stripPreambleLoop preambles (pyLower t) t = pyStrip (t.drop q.length)) := by
  refine ⟨?_, ?_, ?_⟩
  · intro p goal ak ek raw h
    simp [rewrite_prompt_with_llm, effectiveKey, h]
  · intro t h
    exact stripPreambleLoop_find_none preambles (pyLower t) t h
  · intro t q h
    exact stripPreambleLoop_find_some preambles (pyLower t) t q h

theorem rewrite_preamble_strip_witness :
    rewrite_prompt_with_llm ("p".data) ("g".data) ("k".data) []
        (Except.ok ("Here is the rewritten prompt:\n  Role: X".data))
      = "Role: X".data :=
  (rewrite_preamble_strip.1 ("p".data) ("g".data) ("k".data) []
      ("Here is the rewritten prompt:\n  Role: X".data) (by decide)).trans (by decide)

/-- One metadata-parsing step keeps the category inside the whitelist. -/
theorem parseMetaLine_mem (acc : Str × Str) (line : Str)
    (h : acc.2 ∈ categoriesWhitelist) :
    (parseMetaLine acc line).2 ∈ categoriesWhitelist := by
  simp only [parseMetaLine]
  split
  · exact h
  · split
    · split
      · next hc => exact hc
      · exact h
    · exact h

/-- The metadata-parsing fold keeps the category inside the whitelist. -/
theorem foldl_parseMetaLine_mem :
    ∀ (ls : List Str) (acc : Str × Str), acc.2 ∈ categoriesWhitelist →
      (ls.foldl parseMetaLine acc).2 ∈ categoriesWhitelist := by
  intro ls
  induction ls with
  | nil => intro acc h; exact h
  | cons l t ih => intro acc h; exact ih _ (parseMetaLine_mem acc l h)

/-- Claim C8: the metadata operation always returns a category from the
whitelist {coding, writing, analysis, creative, other}; a `CATEGORY:` line
whose trimmed lower-cased remainder is not whitelisted leaves the default
"other" (`"CATEGORY: nonsense"` in particular), while a whitelisted value such
as `"coding"` is accepted. -/
theorem infer_metadata_category_whitelist :
    (∀ (prompt ak ek : Str) (prov : Except Unit Str),
        (infer_metadata prompt ak ek prov).2 ∈ categoriesWhitelist) ∧
    (parseMetadata ("CATEGORY: nonsense".data)).2 = "other".data ∧
    parseMetadata ("TITLE: Fix Login Bug\nCATEGORY: coding".data)
      = ("Fix Login Bug".data, "coding".data) := by
  refine ⟨?_, by decide, by decide⟩
  intro prompt ak ek prov
  have hother : ("other".data : Str) ∈ categoriesWhitelist := by decide
  by_cases hk : effectiveKey ak ek = []
  · simp [infer_metadata, hk, metadataFallback, hother]
  · cases prov with
    | error e => simp [infer_metadata, hk, metadataFallback, hother]
    | ok text =>
      simp only [infer_metadata, hk, if_neg]
      exact foldl_parseMetaLine_mem _ _ hother

/-- Claim C9: with no effective credential the metadata operation returns
category "other" and a locally computed title: the prompt itself when its
length is at most 50 characters, otherwise its first 50 characters followed by
the ellipsis marker `"..."`, for every provider outcome. -/
theorem infer_metadata_no_key :
    ∀ (prompt : Str) (prov : Except Unit Str),
      (infer_metadata prompt [] [] prov).2 = "other".data ∧
      (prompt.length ≤ 50 → (infer_metadata prompt [] [] prov).1 = prompt) ∧
      (50 < prompt.length →
        (infer_metadata prompt [] [] prov).1 = prompt.take 50 ++ "...".data) := by
  intro prompt prov
  refine ⟨?_, ?_, ?_⟩
  · simp [infer_metadata, effectiveKey, metadataFallback]
  · intro h
    simp [infer_metadata, effectiveKey, metadataFallback, Nat.not_lt.mpr h]
  · intro h
    simp [infer_metadata, effectiveKey, metadataFallback, h]

theorem infer_metadata_no_key_witness :
    (infer_metadata
        ("aaaaaaaaaaaaaaaaaaaaaaaaaaaaaaaaaaaaaaaaaaaaaaaaaaaaaaaaaaaa".data)
        [] [] (Except.ok ("TITLE: X".data))).1
      = "aaaaaaaaaaaaaaaaaaaaaaaaaaaaaaaaaaaaaaaaaaaaaaaaaa...".data :=
  ((infer_metadata_no_key
      ("aaaaaaaaaaaaaaaaaaaaaaaaaaaaaaaaaaaaaaaaaaaaaaaaaaaaaaaaaaaa".data)
      (Except.ok ("TITLE: X".data))).2.2 (by decide)).trans (by decide)

/-- A list always heads its own append. -/
theorem listStartsWith_append_self : ∀ t s : Str, listStartsWith t (t ++ s) = true := by
  intro t
  induction t with
  | nil => intro s; rfl
  | cons c cs ih =>
    intro s
    simp [listStartsWith, ih]

/-- The fuel of `removeAllFuel` is irrelevant as soon as it covers the length
of the text: the scan consumes at least one character per unit of fuel. -/
theorem removeAllFuel_fuel_le (old : Str) :
    ∀ (k : Nat) (s : Str), s.length ≤ k →
      ∀ fuel, s.length ≤ fuel →
        removeAllFuel old fuel s = removeAllFuel old s.length s := by
  intro k
  induction k with
  | zero =>
    intro s hs fuel hf
    have hnil : s = [] := by
      cases s with
      | nil => rfl
      | cons c cs => simp at hs
    subst hnil
    simp [removeAllFuel]
  | succ n ih =>
    intro s hs fuel hf
    cases s with
    | nil => simp [removeAllFuel]
    | cons c cs =>
      obtain ⟨m, rfl⟩ : ∃ m, fuel = m + 1 := ⟨fuel - 1, by simp at hf; omega⟩
      have hcs : cs.length ≤ n := by simp at hs; omega
      have hcm : cs.length ≤ m := by simp at hf; omega
      rw [List.length_cons]
      simp only [removeAllFuel]
      by_cases hg : (!old.isEmpty && listStartsWith old (c :: cs)) = true
      · rw [if_pos hg, if_pos hg]
        have hone : 1 ≤ old.length := by
          cases old with
          | nil => simp at hg
          | cons o os => simp
        have hd : ((c :: cs).drop old.length).length ≤ cs.length := by
          rw [List.length_drop]
          simp only [List.length_cons]
          omega
        rw [ih _ (le_trans hd hcs) m (le_trans hd hcm),
            ih _ (le_trans hd hcs) cs.length hd]
      · rw [if_neg hg, if_neg hg, ih cs hcs m hcm]

/-- Running `removeAllFuel` with any sufficient fuel computes `pyReplaceEmpty`. -/
theorem removeAllFuel_ge (old s : Str) (fuel : Nat) (h : s.length ≤ fuel) :
    removeAllFuel old fuel s = pyReplaceEmpty old s :=
  removeAllFuel_fuel_le old s.length s le_rfl fuel h

/-- Removing every `"TITLE:"` occurrence recurses past a leading occurrence
into the remainder of the text, instead of stopping after stripping it. -/
theorem pyReplaceEmpty_title_append (s : Str) :
    pyReplaceEmpty ("TITLE:".data) ("TITLE:".data ++ s)
      = pyReplaceEmpty ("TITLE:".data) s := by
  have h2 : removeAllFuel ("TITLE:".data) (("ITLE:".data ++ s).length + 1)
      ('T' :: ("ITLE:".data ++ s))
      = removeAllFuel ("TITLE:".data) (("ITLE:".data ++ s).length) s := by
    simp only [removeAllFuel]
    rw [if_pos]
    · rfl
    · have hsw := listStartsWith_append_self ("TITLE:".data) s
      simp only [Bool.and_eq_true]
      exact ⟨rfl, hsw⟩
  have h3 : removeAllFuel ("TITLE:".data) (("ITLE:".data ++ s).length) s
      = pyReplaceEmpty ("TITLE:".data) s := by
    have h5 : ("ITLE:".data).length = 5 := rfl
    exact removeAllFuel_ge _ _ _ (by rw [List.length_append, h5]; omega)
  calc pyReplaceEmpty ("TITLE:".data) ("TITLE:".data ++ s)
      = removeAllFuel ("TITLE:".data) (("ITLE:".data ++ s).length + 1)
          ('T' :: ("ITLE:".data ++ s)) := rfl
    _ = removeAllFuel ("TITLE:".data) (("ITLE:".data ++ s).length) s := h2
    _ = pyReplaceEmpty ("TITLE:".data) s := h3

/-- Claim C10: a `TITLE:` line sets the title to the line with every
occurrence of the substring `"TITLE:"` removed (Python `replace`, not only the
leading prefix) and then trimmed; symmetrically an inner `"CATEGORY:"`
occurrence inside a `CATEGORY:` line is deleted as well before the whitelist
check. -/
theorem parse_title_replace_all :
    (∀ (acc : Str × Str) (rawLine : Str),
        listStartsWith ("TITLE:".data) (pyStrip rawLine) = true →
        (parseMetaLine acc rawLine).1
          = pyStrip (pyReplaceEmpty ("TITLE:".data) (pyStrip rawLine))) ∧
    (∀ s : Str, pyReplaceEmpty ("TITLE:".data) ("TITLE:".data ++ s)
        = pyReplaceEmpty ("TITLE:".data) s) ∧
    parseMetadata ("TITLE: My TITLE: Test".data) = ("My  Test".data, "other".data) ∧
    parseMetadata ("CATEGORY: codingCATEGORY:".data)
      = ("Untitled Prompt".data, "coding".data) := by
  refine ⟨?_, pyReplaceEmpty_title_append, by decide, by decide⟩
  intro acc rawLine h
  simp [parseMetaLine, h]

theorem parse_title_replace_all_witness :
    (parseMetaLine ("Untitled Prompt".data, "other".data) ("TITLE: A TITLE: B".data)).1
      = "A  B".data :=
  (parse_title_replace_all.1 ("Untitled Prompt".data, "other".data)
      ("TITLE: A TITLE: B".data) (by decide)).trans (by decide)

